import Mathlib

/-!
Verification of the workflow-orchestration core of the IMO multi-agent
pipeline (src/main.py).  The shallow embedding below translates, from the
source:

* `GraphState` — the LangGraph `TypedDict` state (fields present as
  `Option` values; a key absent from the state dict is `none`);
* the five node functions `generator_node`, `self_improvement_node`,
  `verifier_node`, `human_review_node`, `corrector_node`, each modelled as
  a pure function of the state and of the outcome of its external calls
  (LLM oracle / human input).  A node that can let a Python exception
  escape uncaught is typed `Except String Delta`, with `Except.error`
  standing for the uncaught exception;
* the conditional-edge routers `decide_after_verification` and
  `decide_after_human_review`;
* the LangGraph driver `runFromG` — nodes wired by `add_edge` /
  `add_conditional_edges`, executed one per super-step under the
  `recursion_limit` passed to `app.stream` (10 in the source).

Python string operations used by the router are modelled on `List Char`:
`in` is contiguous-substring containment, `.lower()` maps `Char.toLower`
over the characters, `.strip()` removes leading and trailing whitespace.
-/

/-- Python whitespace characters recognised by `str.strip()`. -/
def isPySpace (c : Char) : Bool :=
  c = ' ' || c = '\t' || c = '\n' || c = '\r' || c = Char.ofNat 11 || c = Char.ofNat 12

/-- Python `s.lower()` (character-wise, as used on the ASCII verdicts). -/
def pyLower (s : String) : List Char :=
  s.data.map Char.toLower

/-- Python `s.strip()`: drop leading and trailing whitespace. -/
def pyStrip (l : List Char) : List Char :=
  (l.dropWhile isPySpace).rdropWhile isPySpace

/-- Python `pat in s`: contiguous substring containment. -/
def containsSub (pat : String) (l : List Char) : Bool :=
  decide (pat.data <:+: l)

/-- Python truthiness of an optional string (`None` and `""` are falsy),
as used by `if state.get("error"):`. -/
def pyTruthy (o : Option String) : Bool :=
  match o with
  | none => false
  | some s => !s.data.isEmpty

/-- The LangGraph state (`GraphState` in src/main.py).  A field whose
channel has never been written is `none`; `state.get(k, d)` is `getD`,
and `state[k]` on an unwritten field raises `KeyError`. -/
structure GraphState where
  problem_statement : String
  solution : Option String := none
  bug_report : Option String := none
  verification_summary : Option String := none
  iterations : Option Nat := none
  error : Option String := none
deriving DecidableEq, Repr

/-- A partial state update returned by a node (the dict a node returns;
`problem_statement` is never written by any node). -/
structure Delta where
  solution : Option String := none
  bug_report : Option String := none
  verification_summary : Option String := none
  iterations : Option Nat := none
  error : Option String := none
deriving DecidableEq, Repr

/-- Overwrite-if-present semantics of a LangGraph `LastValue` channel. -/
def ovr {α : Type} : Option α → Option α → Option α
  | some v, _ => some v
  | none, old => old

/-- Merge a node delta into the shared state (one LangGraph super-step). -/
def merge (s : GraphState) (d : Delta) : GraphState :=
  { problem_statement := s.problem_statement
    solution := ovr d.solution s.solution
    bug_report := ovr d.bug_report s.bug_report
    verification_summary := ovr d.verification_summary s.verification_summary
    iterations := ovr d.iterations s.iterations
    error := ovr d.error s.error }

/-- The structured output shape shared by generator, self-improvement and
corrector calls (`SolutionGeneration` in src/main.py, flattened). -/
structure SolutionGeneration where
  verdict : String
  method_sketch : String
  proof : String
deriving DecidableEq, Repr

/-- The `solution_text` assembled from a structured generation response. -/
def solution_text (r : SolutionGeneration) : String :=
  "## Summary\n\n**Verdict:** " ++ r.verdict ++ "\n\n**Method Sketch:**\n"
    ++ r.method_sketch ++ "\n\n## Detailed Solution\n\n" ++ r.proof

/-- Outcome of the external calls made by the verifier node: the structured call
succeeds, or it fails and the unstructured fallback call returns raw
text, or both calls fail. -/
inductive VerifyOutcome where
  | structured (final_verdict : String) (findings : Option (List String))
  | fallback (raw : String)
  | bothFail (msg : String)
deriving DecidableEq, Repr

/-- Does this outcome represent failure of both external calls? -/
def VerifyOutcome.isBothFail : VerifyOutcome → Bool
  | .bothFail _ => true
  | _ => false

/-- `generator_node`: on success, sets `solution`; the whole oracle call
is inside `try`, so an oracle failure is returned as the `error` field. -/
def generator_node (o : Except String SolutionGeneration) : Delta :=
  match o with
  | .ok r => { solution := some (solution_text r) }
  | .error e => { error := some ("Failed to generate a solution: " ++ e) }

/-- `self_improvement_node`: reads `state["solution"]` inside `try` (a
missing key is caught like an oracle failure); on any failure it returns
the empty delta, keeping the prior solution. -/
def self_improvement_node (s : GraphState) (o : Except String SolutionGeneration) : Delta :=
  match s.solution with
  | none => {}
  | some _ =>
    match o with
    | .ok r => { solution := some (solution_text r) }
    | .error _ => {}

/-- The delta a completed verifier execution returns: verdict sentence,
joined findings (or the sentinel when none), `iterations + 1`. -/
def verifyDelta (s : GraphState) (final_verdict : String) (findings : List String) : Delta :=
  { verification_summary := some final_verdict
    bug_report := some (if findings.isEmpty then "No issues found."
      else String.intercalate "\n" (findings.map (fun f => "- " ++ f)))
    iterations := some (s.iterations.getD 0 + 1) }

/-- `verifier_node`.  The structured attempt reads `state["solution"]`
inside `try`; on its failure the fallback call runs outside any `try`,
so a missing `solution` key or a failing fallback call escapes as an
uncaught exception (`Except.error`).  A structured response with
`findings = None` is coerced to the empty list (`response.findings or []`);
the fallback raw text is classified by searching for
"the solution is correct" in its lower-cased form. -/
def verifier_node (s : GraphState) (o : VerifyOutcome) : Except String Delta :=
  match s.solution with
  | none => .error "KeyError: solution"
  | some _ =>
    match o with
    | .structured fv fnd => .ok (verifyDelta s fv (fnd.getD []))
    | .fallback raw =>
      if containsSub "the solution is correct" (pyLower raw) then
        .ok (verifyDelta s "The solution is correct." [])
      else
        .ok (verifyDelta s "The solution may contain issues - manual review recommended."
          ["Verification completed with regular output - see detailed response above"])
    | .bothFail m => .error m

/-- `human_review_node`: prints `state["verification_summary"]` and
`state["bug_report"]` (uncaught `KeyError` if absent), then loops until
the reviewer types y or n; approval returns the empty delta, rejection
returns a delta setting the `error` field. -/
def human_review_node (s : GraphState) (approve : Bool) : Except String Delta :=
  match s.verification_summary, s.bug_report with
  | some _, some _ =>
    if approve then .ok {}
    else .ok { error := some "Human reviewer rejected the bug report." }
  | _, _ => .error "KeyError"

/-- `corrector_node`: reads `state["bug_report"]` before the `try` block
(uncaught `KeyError` if absent); `state["solution"]` is read inside
`try`, so its absence — like an oracle failure — is returned as the
`error` field. -/
def corrector_node (s : GraphState) (o : Except String SolutionGeneration) : Except String Delta :=
  match s.bug_report with
  | none => .error "KeyError: bug_report"
  | some _ =>
    match s.solution with
    | none => .ok { error := some "Failed to correct the solution: KeyError" }
    | some _ =>
      match o with
      | .ok r => .ok { solution := some (solution_text r) }
      | .error e => .ok { error := some ("Failed to correct the solution: " ++ e) }

/-- The `is_correct` classification inside `decide_after_verification`,
on the lower-cased summary.  In Python, `and` binds tighter than `or`, so
the last line is one disjunct. -/
def is_correct (summary : List Char) : Bool :=
  containsSub "the solution is correct" summary ||
  containsSub "solution is correct" summary ||
  decide (pyStrip summary = "the solution is correct.".data) ||
  (containsSub "correct" summary && !containsSub "incorrect" summary
    && !containsSub "error" summary)

/-- `decide_after_verification`: END on a truthy `error`, END on an
accepted verdict, END once `iterations ≥ 3`, otherwise human review. -/
def decide_after_verification (s : GraphState) : String :=
  if pyTruthy s.error then "END"
  else if is_correct (pyLower (s.verification_summary.getD "")) then "END"
  else if 3 ≤ s.iterations.getD 0 then "END"
  else "human_review"

/-- `decide_after_human_review`: END on a truthy `error`, else corrector. -/
def decide_after_human_review (s : GraphState) : String :=
  if pyTruthy s.error then "END" else "corrector"

/-- The five graph nodes. -/
inductive NodeId where
  | generator
  | self_improvement
  | verifier
  | human_review
  | corrector
deriving DecidableEq, Repr

/-- Result of driving the graph: normal arrival at END, an uncaught
exception from a node (the crashing node and its input state recorded),
or the LangGraph `GraphRecursionError` when the `recursion_limit` on total
super-steps is exhausted. -/
inductive RunResult where
  | finished (s : GraphState)
  | crashed (node : NodeId) (s : GraphState) (msg : String)
  | recursionLimit (s : GraphState)
deriving DecidableEq, Repr

/-- The conditional-edge mapping registered for the verifier:
`{"human_review": "human_review", "END": END}`; any other label raises. -/
def routeVerifier (label : String) : Except String (Option NodeId) :=
  if label = "human_review" then .ok (some .human_review)
  else if label = "END" then .ok none
  else .error "unknown branch"

/-- The conditional-edge mapping registered for human review:
`{"corrector": "corrector", "END": END}`; any other label raises. -/
def routeHuman (label : String) : Except String (Option NodeId) :=
  if label = "corrector" then .ok (some .corrector)
  else if label = "END" then .ok none
  else .error "unknown branch"

/-- The external inputs of one run: the generator and self-improvement
outcomes, and the outcome of the n-th verifier / human-review /
corrector invocation. -/
structure Oracle where
  gen : Except String SolutionGeneration
  refine : Except String SolutionGeneration
  verify : Nat → VerifyOutcome
  human : Nat → Bool
  correct : Nat → Except String SolutionGeneration

/-- The LangGraph driver for the compiled workflow, generalised over the
two router functions (`dV` after the verifier, `dH` after human review)
so that defensive properties hold for a misbehaving router as well.
`fuel` is the remaining `recursion_limit` budget of super-steps; the
graph edges are exactly those added in src/main.py (`generator →
self_improvement → verifier`, `corrector → verifier`, conditional edges
after `verifier` and `human_review`).  Returns the list of completed
node executions (each with its input state) and the run result. -/
def runFromG (dV dH : GraphState → String) (o : Oracle) :
    Nat → NodeId → GraphState → Nat → Nat → Nat →
      List (NodeId × GraphState) × RunResult
  | 0, _, s, _, _, _ => ([], .recursionLimit s)
  | fuel + 1, .generator, s, nv, nh, nc =>
    let s2 := merge s (generator_node o.gen)
    let r := runFromG dV dH o fuel .self_improvement s2 nv nh nc
    ((.generator, s) :: r.1, r.2)
  | fuel + 1, .self_improvement, s, nv, nh, nc =>
    let s2 := merge s (self_improvement_node s o.refine)
    let r := runFromG dV dH o fuel .verifier s2 nv nh nc
    ((.self_improvement, s) :: r.1, r.2)
  | fuel + 1, .verifier, s, nv, nh, nc =>
    match verifier_node s (o.verify nv) with
    | .error m => ([], .crashed .verifier s m)
    | .ok d =>
      let s2 := merge s d
      match routeVerifier (dV s2) with
      | .error m => ([(.verifier, s)], .crashed .verifier s2 m)
      | .ok none => ([(.verifier, s)], .finished s2)
      | .ok (some n) =>
        let r := runFromG dV dH o fuel n s2 (nv + 1) nh nc
        ((.verifier, s) :: r.1, r.2)
  | fuel + 1, .human_review, s, nv, nh, nc =>
    match human_review_node s (o.human nh) with
    | .error m => ([], .crashed .human_review s m)
    | .ok d =>
      let s2 := merge s d
      match routeHuman (dH s2) with
      | .error m => ([(.human_review, s)], .crashed .human_review s2 m)
      | .ok none => ([(.human_review, s)], .finished s2)
      | .ok (some n) =>
        let r := runFromG dV dH o fuel n s2 nv (nh + 1) nc
        ((.human_review, s) :: r.1, r.2)
  | fuel + 1, .corrector, s, nv, nh, nc =>
    match corrector_node s (o.correct nc) with
    | .error m => ([], .crashed .corrector s m)
    | .ok d =>
      let s2 := merge s d
      let r := runFromG dV dH o fuel .verifier s2 nv nh (nc + 1)
      ((.corrector, s) :: r.1, r.2)

/-- The driver with the routers actually registered in src/main.py. -/
def runFrom (o : Oracle) (fuel : Nat) (node : NodeId) (s : GraphState)
    (nv nh nc : Nat) : List (NodeId × GraphState) × RunResult :=
  runFromG decide_after_verification decide_after_human_review o fuel node s nv nh nc

/-- The initial state: only `problem_statement` populated. -/
def initState (pb : String) : GraphState :=
  { problem_statement := pb }

/-- One full run: `app.stream(initial_state, {"recursion_limit": 10})`,
entry point `generator`. -/
def run (o : Oracle) (pb : String) : List (NodeId × GraphState) × RunResult :=
  runFrom o 10 .generator (initState pb) 0 0 0

/-- Number of completed verifier executions in a trace. -/
def countVer (tr : List (NodeId × GraphState)) : Nat :=
  tr.countP (fun e => decide (e.1 = .verifier))

/-- The state carried by any run result. -/
def resultState : RunResult → GraphState
  | .finished s => s
  | .crashed _ s _ => s
  | .recursionLimit s => s

/-- Did the run arrive at END normally? -/
def RunResult.isFinished : RunResult → Bool
  | .finished _ => true
  | _ => false

/-- Modelled from the wording of claim C1: ACCEPT exactly when the
lower-cased verdict contains an affirmative correctness phrase (an
occurrence of "correct") and contains neither negation substring
"incorrect" nor "error".  This is the specification-side classifier, to
be compared against the `is_correct` translated from the source. -/
def specAccept (summary : List Char) : Bool :=
  containsSub "correct" summary && !containsSub "incorrect" summary
    && !containsSub "error" summary

/-- A structured generation response used by concrete runs. -/
def gEx : SolutionGeneration :=
  { verdict := "I have solved the problem."
    method_sketch := "Sketch.", proof := "Proof." }

/-- A mid-run state as it looks right after a first rejected
verification (about to enter human review or correction). -/
def sPending : GraphState :=
  { problem_statement := "p", solution := some "sol", bug_report := some "- bad"
    verification_summary := some "The solution contains a Critical Error."
    iterations := some 1 }

/-- Oracle script: generation succeeds, refinement fails, every
verification rejects with one finding, the reviewer approves, and every
correction call fails. -/
def oracleC2 : Oracle :=
  { gen := .ok gEx, refine := .error "net"
    verify := fun _ => .structured "The solution contains a Critical Error." (some ["bad"])
    human := fun _ => true
    correct := fun _ => .error "down" }

/-- Oracle script: everything succeeds and the first verification
accepts. -/
def oracleAccept : Oracle :=
  { gen := .ok gEx, refine := .ok gEx
    verify := fun _ => .structured "The solution is correct." none
    human := fun _ => true
    correct := fun _ => .ok gEx }

/-- Oracle script: all calls succeed, every verification rejects, the
reviewer rejects. -/
def oracleReject : Oracle :=
  { gen := .ok gEx, refine := .error "net"
    verify := fun _ => .structured "The solution contains a Critical Error." (some ["bad"])
    human := fun _ => false
    correct := fun _ => .ok gEx }

/-- Merging the empty delta leaves the state unchanged. -/
theorem merge_empty (s : GraphState) : merge s {} = s := rfl

/-- Stripping whitespace yields a contiguous substring of the original. -/
theorem pyStrip_infix (l : List Char) : pyStrip l <:+: l := by
  have h1 : pyStrip l <+: l.dropWhile isPySpace := List.rdropWhile_prefix _ _
  have h2 : l.dropWhile isPySpace <:+ l := List.dropWhile_suffix _
  exact h1.isInfix.trans h2.isInfix

/-- The four-disjunct `is_correct` collapses to two disjuncts: the first
disjunct and the stripped-equality disjunct each already contain the
substring "solution is correct". -/
theorem is_correct_eq (l : List Char) :
    is_correct l =
      (containsSub "solution is correct" l ||
        (containsSub "correct" l && !containsSub "incorrect" l
          && !containsSub "error" l)) := by
  unfold is_correct
  by_cases hB : "solution is correct".data <:+: l
  · simp [containsSub, hB]
  · have hA : ¬ "the solution is correct".data <:+: l := fun h =>
      hB ((by decide : "solution is correct".data <:+: "the solution is correct".data).trans h)
    have hC : ¬ pyStrip l = "the solution is correct.".data := fun h => by
      apply hB
      have hsub : "solution is correct".data <:+: "the solution is correct.".data := by decide
      exact hsub.trans (h ▸ pyStrip_infix l)
    simp [containsSub, hA, hB, hC]

/-- Shape of the delta of every completed verifier execution. -/
theorem verifier_ok_fields (s : GraphState) (o : VerifyOutcome) (d : Delta)
    (h : verifier_node s o = .ok d) :
    d.iterations = some (s.iterations.getD 0 + 1) ∧ d.error = none
      ∧ d.verification_summary.isSome = true ∧ d.bug_report.isSome = true
      ∧ d.solution = none := by
  cases hs : s.solution with
  | none => simp [verifier_node, hs] at h
  | some v =>
    cases o with
    | structured fv fnd =>
      simp only [verifier_node, hs, Except.ok.injEq] at h
      subst h
      simp [verifyDelta]
    | fallback raw =>
      simp only [verifier_node, hs] at h
      split at h <;>
        (simp only [Except.ok.injEq] at h; subst h; simp [verifyDelta])
    | bothFail m => simp [verifier_node, hs] at h

/-- The generator delta never touches `iterations` or clears fields. -/
theorem generator_node_iterations (o : Except String SolutionGeneration) :
    (generator_node o).iterations = none := by
  cases o <;> rfl

/-- The self-improvement delta never touches `iterations` or `error`. -/
theorem self_improvement_node_iterations (s : GraphState)
    (o : Except String SolutionGeneration) :
    (self_improvement_node s o).iterations = none := by
  unfold self_improvement_node
  cases s.solution with
  | none => rfl
  | some v => cases o <;> rfl

/-- A completed human-review execution never touches `iterations`. -/
theorem human_review_ok_iterations (s : GraphState) (b : Bool) (d : Delta)
    (h : human_review_node s b = .ok d) : d.iterations = none := by
  unfold human_review_node at h
  cases hv : s.verification_summary <;> cases hb : s.bug_report <;>
    rw [hv, hb] at h <;> first
    | exact Except.noConfusion h
    | (cases b <;> (injection h with h1; subst h1; rfl))

/-- A completed corrector execution never touches `iterations`. -/
theorem corrector_ok_iterations (s : GraphState)
    (o : Except String SolutionGeneration) (d : Delta)
    (h : corrector_node s o = .ok d) : d.iterations = none := by
  unfold corrector_node at h
  cases hb : s.bug_report <;> rw [hb] at h
  · exact Except.noConfusion h
  · cases hs : s.solution <;> rw [hs] at h
    · injection h with h1; subst h1; rfl
    · cases o <;> (injection h with h1; subst h1; rfl)

/-- A delta that does not mention `iterations` preserves it on merge. -/
theorem merge_iterations_none (s : GraphState) (d : Delta)
    (h : d.iterations = none) : (merge s d).iterations = s.iterations := by
  simp [merge, h, ovr]

/-- The post-verification router only ever emits the two registered
labels, and it emits "human_review" only below the iteration budget and
with no truthy error. -/
theorem decide_after_verification_cases (s : GraphState) :
    decide_after_verification s = "END" ∨
      (decide_after_verification s = "human_review"
        ∧ s.iterations.getD 0 < 3 ∧ pyTruthy s.error = false) := by
  unfold decide_after_verification
  split
  · exact Or.inl rfl
  · split
    · exact Or.inl rfl
    · split
      · exact Or.inl rfl
      · rename_i h1 h2 h3
        exact Or.inr ⟨rfl, by omega, by simpa using h1⟩

/-- The post-human-review router only ever emits the two registered labels. -/
theorem decide_after_human_review_cases (s : GraphState) :
    decide_after_human_review s = "END" ∨ decide_after_human_review s = "corrector" := by
  unfold decide_after_human_review
  split
  · exact Or.inl rfl
  · exact Or.inr rfl

/-- An error message built from a nonempty literal is truthy. -/
theorem pyTruthy_append (a e : String) (h : a.data ≠ []) :
    pyTruthy (some (a ++ e)) = true := by
  simp [pyTruthy, String.data_append, h]

/-- Reduction of the human-review node when both inputs are present. -/
theorem human_review_node_eq (s : GraphState) (b : Bool)
    (hv : s.verification_summary.isSome = true) (hb : s.bug_report.isSome = true) :
    human_review_node s b
      = .ok (if b then {}
          else { error := some "Human reviewer rejected the bug report." }) := by
  obtain ⟨v, hv2⟩ := Option.isSome_iff_exists.mp hv
  obtain ⟨w, hb2⟩ := Option.isSome_iff_exists.mp hb
  cases b <;> simp [human_review_node, hv2, hb2]

/-- C1 (counterexample): a verdict containing both "the solution is
correct" and "error" is classified ACCEPT by the source router (the run
ends as accepted with the budget not exhausted), whereas the claimed
classification (`specAccept`) demands REJECT. -/
theorem C1_counterexample :
    is_correct (pyLower "The solution is correct, but there is an error.") = true
    ∧ specAccept (pyLower "The solution is correct, but there is an error.") = false
    ∧ decide_after_verification
        { problem_statement := "p"
          verification_summary := some "The solution is correct, but there is an error."
          iterations := some 1 } = "END" := by
  decide

/-- C1 (amended): for every state whose error field is unset, the router
classifies the verdict as ACCEPT if and only if the lower-cased verdict
contains the substring "solution is correct" (regardless of any negation
substring), or contains "correct" while containing neither "incorrect"
nor "error"; every other verdict is REJECT, routed to human review below
the iteration budget and to END otherwise. -/
theorem C1_router_amended (pb : String) (sol br vs : Option String) (it : Option Nat) :
    decide_after_verification
        { problem_statement := pb, solution := sol, bug_report := br
          verification_summary := vs, iterations := it, error := none } =
      (if containsSub "solution is correct" (pyLower (vs.getD ""))
          || (containsSub "correct" (pyLower (vs.getD ""))
              && !containsSub "incorrect" (pyLower (vs.getD ""))
              && !containsSub "error" (pyLower (vs.getD "")))
        then "END"
        else if 3 ≤ it.getD 0 then "END" else "human_review") := by
  simp only [decide_after_verification, pyTruthy, Bool.false_eq_true, if_false,
    is_correct_eq]

/-- C9: the post-verification router is a pure function of exactly the
`error`, `verification_summary` and `iterations` fields — two states
agreeing on those three fields (whatever their artifact or critique
text) receive the same decision, and evaluating it twice on the same
state trivially yields the same decision. -/
theorem C9_router_pure (s t : GraphState) (he : s.error = t.error)
    (hv : s.verification_summary = t.verification_summary)
    (hi : s.iterations = t.iterations) :
    decide_after_verification s = decide_after_verification t
    ∧ decide_after_verification s = decide_after_verification s := by
  constructor
  · unfold decide_after_verification
    rw [he, hv, hi]
  · rfl

/-- C9 witness: two concrete states differing in `solution` and
`bug_report` only receive the same routing decision. -/
theorem C9_router_pure_witness :
    decide_after_verification
        { problem_statement := "p", solution := some "artifact A"
          verification_summary := some "The solution contains a Critical Error."
          iterations := some 1 }
      = decide_after_verification
        { problem_statement := "p", solution := some "artifact B", bug_report := some "- bad"
          verification_summary := some "The solution contains a Critical Error."
          iterations := some 1 }
    ∧ decide_after_verification
        { problem_statement := "p", solution := some "artifact A"
          verification_summary := some "The solution contains a Critical Error."
          iterations := some 1 }
      = decide_after_verification
        { problem_statement := "p", solution := some "artifact A"
          verification_summary := some "The solution contains a Critical Error."
          iterations := some 1 } :=
  C9_router_pure _ _ rfl rfl rfl

/-- C10: a structured verifier response whose findings list is missing
(`None`) is coerced to the empty list, so the verifier emits the
acceptance-shaped critique "No issues found." with the final verdict
passed through unchanged and `iterations` incremented; and the routing
decision is independent of the `bug_report` critique text. -/
theorem C10_none_findings (pb sol fv : String) (br vs err : Option String)
    (it : Option Nat) (t : GraphState) (b : Option String) :
    verifier_node
        { problem_statement := pb, solution := some sol, bug_report := br
          verification_summary := vs, iterations := it, error := err }
        (.structured fv none)
      = .ok { bug_report := some "No issues found.", verification_summary := some fv
              iterations := some (it.getD 0 + 1) }
    ∧ decide_after_verification { t with bug_report := b }
      = decide_after_verification t := by
  exact ⟨rfl, rfl⟩

/-- C4 (counterexample): when both the structured and the fallback
verifier calls fail, the verifier node propagates the failure as an
uncaught exception across the node boundary instead of returning it as
an error delta. -/
theorem C4_counterexample :
    verifier_node { problem_statement := "p", solution := some "s" }
        (.bothFail "transport failure")
      = .error "transport failure" := rfl

/-- C4 (amended): the generator and self-improvement nodes always return
their outcome as a delta, but the other nodes can let an exception
escape: the verifier returns a delta exactly when the solution field is
present and not both of its calls failed; the corrector raises exactly
when `bug_report` is absent; human review raises exactly when the
verdict or the critique is absent. -/
theorem C4_uncaught_characterisation (s : GraphState) (o : VerifyOutcome)
    (oc : Except String SolutionGeneration) (ap : Bool) :
    (verifier_node s o).isOk = (s.solution.isSome && !o.isBothFail)
    ∧ (corrector_node s oc).isOk = s.bug_report.isSome
    ∧ (human_review_node s ap).isOk
        = (s.verification_summary.isSome && s.bug_report.isSome) := by
  refine ⟨?_, ?_, ?_⟩
  · cases hs : s.solution with
    | none =>
      cases o <;> simp [verifier_node, hs, VerifyOutcome.isBothFail, Except.isOk,
        Except.toBool]
    | some v =>
      cases o with
      | fallback raw =>
        simp only [verifier_node, hs]
        split <;> simp [hs, VerifyOutcome.isBothFail, Except.isOk, Except.toBool]
      | structured fv fnd =>
        simp [verifier_node, hs, VerifyOutcome.isBothFail, Except.isOk, Except.toBool]
      | bothFail m =>
        simp [verifier_node, hs, VerifyOutcome.isBothFail, Except.isOk, Except.toBool]
  · cases hb : s.bug_report <;>
      cases hs : s.solution <;>
      cases oc <;>
      simp [corrector_node, hb, hs, Except.isOk, Except.toBool]
  · cases hv : s.verification_summary <;> cases hb : s.bug_report <;>
      simp only [human_review_node, hv, hb, Option.isSome] <;>
      first
      | rfl
      | (cases ap <;> rfl)

/-- C5: every completed verifier execution sets verdict and critique
together (both present, solution and error untouched) and increments
`iterations` by exactly one; on the structured path the delta is exactly
the verdict sentence together with the joined findings, or the sentinel
"No issues found." when the findings list is empty. -/
theorem C5_verify_sets_pair :
    (∀ (s : GraphState) (o : VerifyOutcome) (d : Delta), verifier_node s o = .ok d →
      d.verification_summary.isSome = true ∧ d.bug_report.isSome = true
        ∧ d.iterations = some (s.iterations.getD 0 + 1)
        ∧ d.solution = none ∧ d.error = none)
    ∧ ∀ (pb sol fv : String) (br vs err : Option String) (it : Option Nat)
        (fnd : List String),
      verifier_node
          { problem_statement := pb, solution := some sol, bug_report := br
            verification_summary := vs, iterations := it, error := err }
          (.structured fv (some fnd))
        = .ok { verification_summary := some fv
                bug_report := some (if fnd.isEmpty then "No issues found."
                  else String.intercalate "\n" (fnd.map (fun f => "- " ++ f)))
                iterations := some (it.getD 0 + 1) } := by
  constructor
  · intro s o d h
    have := verifier_ok_fields s o d h
    exact ⟨this.2.2.1, this.2.2.2.1, this.1, this.2.2.2.2, this.2.1⟩
  · intro pb sol fv br vs err it fnd
    rfl

/-- C5 witness: a concrete completed verifier execution with one finding
sets verdict and critique together and bumps `iterations` from 1 to 2. -/
theorem C5_verify_sets_pair_witness :
    (Delta.verification_summary
        { verification_summary := some "The solution contains a Critical Error."
          bug_report := some "- bad step", iterations := some 2 }).isSome = true
    ∧ (Delta.bug_report
        { verification_summary := some "The solution contains a Critical Error."
          bug_report := some "- bad step", iterations := some 2 }).isSome = true
    ∧ Delta.iterations
        { verification_summary := some "The solution contains a Critical Error."
          bug_report := some "- bad step", iterations := some 2 }
      = some ((Option.some 1).getD 0 + 1)
    ∧ Delta.solution
        { verification_summary := some "The solution contains a Critical Error."
          bug_report := some "- bad step", iterations := some 2 }
      = none
    ∧ Delta.error
        { verification_summary := some "The solution contains a Critical Error."
          bug_report := some "- bad step", iterations := some 2 }
      = none :=
  C5_verify_sets_pair.1
    { problem_statement := "p", solution := some "s", iterations := some 1 }
    (.structured "The solution contains a Critical Error." (some ["bad step"]))
    _ rfl

/-- C2 (counterexample): in a concrete run where correction fails after
a first rejected verification, the verifier still executes after the
failure field is set (it is the last element of the execution trace,
after the corrector), and `iterations` rises from 1 to 2 before the run
terminates — contradicting the claim that no further Step executes and
that `iterations` stays unchanged once `failure` is non-empty. -/
theorem C2_counterexample :
    (run oracleC2 "p").1.map Prod.fst
        = [.generator, .self_improvement, .verifier, .human_review, .corrector, .verifier]
    ∧ (run oracleC2 "p").2.isFinished = true
    ∧ pyTruthy (resultState (run oracleC2 "p").2).error = true
    ∧ (resultState (run oracleC2 "p").2).iterations = some 2 := by
  decide

/-- C2 (amended): a non-empty failure short-circuits the run only at the
two conditional routers — both return END on a truthy error — while
Steps wired by unconditional edges still execute after a failure: when
the corrector fails, the verifier still runs on the failed state,
increments `iterations` once more, and only then does the router
terminate the run. -/
theorem C2_failure_gating :
    (∀ s : GraphState, pyTruthy s.error = true →
      decide_after_verification s = "END" ∧ decide_after_human_review s = "END")
    ∧ ∀ (o : Oracle) (fuel nv nh nc : Nat) (s : GraphState) (e fv : String)
        (fnd : Option (List String)),
      s.bug_report.isSome = true → s.solution.isSome = true →
      o.correct nc = .error e → o.verify nv = .structured fv fnd →
      runFrom o (fuel + 2) .corrector s nv nh nc
        = ([(.corrector, s),
            (.verifier, merge s { error := some ("Failed to correct the solution: " ++ e) })],
           .finished (merge (merge s { error := some ("Failed to correct the solution: " ++ e) })
             (verifyDelta (merge s { error := some ("Failed to correct the solution: " ++ e) })
               fv (fnd.getD []))))
      ∧ (merge (merge s { error := some ("Failed to correct the solution: " ++ e) })
          (verifyDelta (merge s { error := some ("Failed to correct the solution: " ++ e) })
            fv (fnd.getD []))).iterations
        = some (s.iterations.getD 0 + 1) := by
  constructor
  · intro s h
    constructor <;> simp [decide_after_verification, decide_after_human_review, h]
  · intro o fuel nv nh nc s e fv fnd hb hs hc hvf
    obtain ⟨w, hb2⟩ := Option.isSome_iff_exists.mp hb
    obtain ⟨v, hs2⟩ := Option.isSome_iff_exists.mp hs
    have h1 : corrector_node s (o.correct nc)
        = .ok { error := some ("Failed to correct the solution: " ++ e) } := by
      simp [corrector_node, hb2, hs2, hc]
    have h2 : verifier_node (merge s { error := some ("Failed to correct the solution: " ++ e) })
          (o.verify nv)
        = .ok (verifyDelta (merge s { error := some ("Failed to correct the solution: " ++ e) })
            fv (fnd.getD [])) := by
      simp [verifier_node, merge, ovr, hs2, hvf]
    have h3 : decide_after_verification
        (merge (merge s { error := some ("Failed to correct the solution: " ++ e) })
          (verifyDelta (merge s { error := some ("Failed to correct the solution: " ++ e) })
            fv (fnd.getD []))) = "END" := by
      have htr : pyTruthy (merge (merge s
            { error := some ("Failed to correct the solution: " ++ e) })
          (verifyDelta (merge s { error := some ("Failed to correct the solution: " ++ e) })
            fv (fnd.getD []))).error = true := by
        simp [merge, ovr, verifyDelta]
        exact pyTruthy_append "Failed to correct the solution: " e (by decide)
      simp [decide_after_verification, htr]
    constructor
    · show runFromG decide_after_verification decide_after_human_review o (fuel + 1 + 1)
        .corrector s nv nh nc = _
      simp only [runFromG, h1, h2, h3, routeVerifier]
      simp
    · simp [merge, ovr, verifyDelta]

/-- C2 witness: both routers terminate a concrete errored state, and the
amended corrector-failure behaviour holds at a concrete mid-run state:
the final `iterations` is 2 after entering the corrector at 1. -/
theorem C2_failure_gating_witness :
    (decide_after_verification
          { problem_statement := "p", error := some "boom" } = "END"
      ∧ decide_after_human_review
          { problem_statement := "p", error := some "boom" } = "END")
    ∧ (merge (merge sPending { error := some ("Failed to correct the solution: " ++ "down") })
        (verifyDelta (merge sPending
            { error := some ("Failed to correct the solution: " ++ "down") })
          "The solution contains a Critical Error." ((some ["bad"]).getD []))).iterations
      = some (sPending.iterations.getD 0 + 1) :=
  ⟨C2_failure_gating.1 { problem_statement := "p", error := some "boom" } rfl,
   (C2_failure_gating.2 oracleC2 0 1 1 0 sPending "down"
      "The solution contains a Critical Error." (some ["bad"]) rfl rfl rfl rfl).2⟩

/-- C6: when generation succeeds and refinement fails, refinement emits
the empty delta, so the run continues — the third executed node is the
verifier, invoked on the very state produced by the generator, whose
`solution` is exactly the generated artifact, unchanged. -/
theorem C6_refine_failure (o : Oracle) (pb e : String) (g : SolutionGeneration)
    (hg : o.gen = .ok g) (hr : o.refine = .error e) :
    run o pb
      = ((.generator, initState pb)
          :: (.self_improvement, merge (initState pb) { solution := some (solution_text g) })
          :: (runFrom o 8 .verifier
                (merge (initState pb) { solution := some (solution_text g) }) 0 0 0).1,
         (runFrom o 8 .verifier
            (merge (initState pb) { solution := some (solution_text g) }) 0 0 0).2)
    ∧ (merge (initState pb) { solution := some (solution_text g) }).solution
        = some (solution_text g) := by
  refine ⟨?_, rfl⟩
  have h1 : generator_node o.gen = { solution := some (solution_text g) } := by
    rw [hg]; rfl
  have h2 : self_improvement_node
      (merge (initState pb) { solution := some (solution_text g) }) o.refine = {} := by
    rw [hr]; rfl
  show runFrom o 10 .generator (initState pb) 0 0 0 = _
  simp only [runFrom, runFromG, h1, h2, merge_empty]

/-- C6 witness: the concrete failing-refinement run starts with
generator and self-improvement and then invokes the verifier on the
unchanged generated artifact. -/
theorem C6_refine_failure_witness :
    run oracleC2 "p"
      = ((.generator, initState "p")
          :: (.self_improvement, merge (initState "p") { solution := some (solution_text gEx) })
          :: (runFrom oracleC2 8 .verifier
                (merge (initState "p") { solution := some (solution_text gEx) }) 0 0 0).1,
         (runFrom oracleC2 8 .verifier
            (merge (initState "p") { solution := some (solution_text gEx) }) 0 0 0).2)
    ∧ (merge (initState "p") { solution := some (solution_text gEx) }).solution
        = some (solution_text gEx) :=
  C6_refine_failure oracleC2 "p" "net" gEx rfl rfl

/-- C7 (counterexample): the rejection delta sets the failure field to
"Human reviewer rejected the bug report.", not to the string
"reviewer rejected critique" stated by the claim. -/
theorem C7_counterexample :
    human_review_node sPending false
      = .ok { error := some "Human reviewer rejected the bug report." }
    ∧ some "Human reviewer rejected the bug report." ≠ some "reviewer rejected critique" :=
  ⟨rfl, by decide⟩

/-- C7 (amended): with verdict and critique present, human review
produces exactly one of two deltas — approval yields the empty delta and
the run proceeds to the corrector, rejection yields a delta setting the
failure field to "Human reviewer rejected the bug report.", after which
the run terminates immediately and the corrector never executes. -/
theorem C7_human_gate (o : Oracle) (fuel nv nh nc : Nat) (s : GraphState)
    (hv : s.verification_summary.isSome = true) (hb : s.bug_report.isSome = true) :
    (human_review_node s true = .ok {}
      ∧ human_review_node s false
          = .ok { error := some "Human reviewer rejected the bug report." })
    ∧ (o.human nh = false →
        runFrom o (fuel + 1) .human_review s nv nh nc
          = ([(.human_review, s)],
             .finished (merge s { error := some "Human reviewer rejected the bug report." })))
    ∧ (o.human nh = true → pyTruthy s.error = false →
        runFrom o (fuel + 1) .human_review s nv nh nc
          = ((.human_review, s) :: (runFrom o fuel .corrector s nv (nh + 1) nc).1,
             (runFrom o fuel .corrector s nv (nh + 1) nc).2)) := by
  refine ⟨⟨human_review_node_eq s true hv hb, human_review_node_eq s false hv hb⟩, ?_, ?_⟩
  · intro ha
    have hn : human_review_node s (o.human nh)
        = .ok { error := some "Human reviewer rejected the bug report." } := by
      rw [ha]; exact human_review_node_eq s false hv hb
    have htr : pyTruthy (merge s
        { error := some "Human reviewer rejected the bug report." }).error = true := by
      simp [merge, ovr, pyTruthy]
    simp only [runFrom, runFromG, hn, decide_after_human_review, htr, if_true,
      routeHuman, if_false]
    simp [routeHuman]
  · intro ha he
    have hn : human_review_node s (o.human nh) = .ok {} := by
      rw [ha]; exact human_review_node_eq s true hv hb
    have hd : decide_after_human_review s = "corrector" := by
      simp [decide_after_human_review, he]
    simp only [runFrom, runFromG, hn, merge_empty, hd, routeHuman]
    simp

/-- C7 witness: at a concrete post-verification state with a rejecting
reviewer, the run ends at human review with the reviewer-rejection
failure and an execution trace not containing the corrector. -/
theorem C7_human_gate_witness :
    runFrom oracleReject 4 .human_review sPending 1 0 0
      = ([(.human_review, sPending)],
         .finished (merge sPending
           { error := some "Human reviewer rejected the bug report." })) :=
  (C7_human_gate oracleReject 3 1 0 0 sPending rfl rfl).2.1 rfl

/-- Counting verifier executions: a verifier trace entry counts one. -/
theorem countVer_cons_ver (s : GraphState) (tr : List (NodeId × GraphState)) :
    countVer ((.verifier, s) :: tr) = countVer tr + 1 := by
  simp [countVer, List.countP_cons]

/-- Counting verifier executions: other trace entries count zero. -/
theorem countVer_cons_other (n : NodeId) (s : GraphState)
    (tr : List (NodeId × GraphState)) (h : ¬ n = NodeId.verifier) :
    countVer ((n, s) :: tr) = countVer tr := by
  simp [countVer, List.countP_cons, h]

/-- The registered verifier branch map sends "END" to END. -/
theorem routeVerifier_end : routeVerifier "END" = .ok none := rfl

/-- The registered verifier branch map sends "human_review" to that node. -/
theorem routeVerifier_hr : routeVerifier "human_review" = .ok (some .human_review) := rfl

/-- The registered human-review branch map sends "END" to END. -/
theorem routeHuman_end : routeHuman "END" = .ok none := rfl

/-- The registered human-review branch map sends "corrector" to that node. -/
theorem routeHuman_cor : routeHuman "corrector" = .ok (some .corrector) := rfl

/-- Invariant of the driver under the real routers: starting from any
state within the iteration budget, a normally finished run gains exactly
one `iterations` unit per completed verifier execution and never exceeds
three. -/
theorem runFrom_iterations_inv (o : Oracle) :
    ∀ (fuel : Nat) (node : NodeId) (s : GraphState) (nv nh nc : Nat)
      (tr : List (NodeId × GraphState)) (sf : GraphState),
      s.iterations.getD 0 ≤ 2 →
      runFrom o fuel node s nv nh nc = (tr, .finished sf) →
      sf.iterations.getD 0 = s.iterations.getD 0 + countVer tr
        ∧ sf.iterations.getD 0 ≤ 3 := by
  intro fuel
  induction fuel with
  | zero =>
    intro node s nv nh nc tr sf hle h
    simp only [runFrom, runFromG] at h
    rw [Prod.mk.injEq] at h
    exact absurd h.2 (by simp)
  | succ fuel ih =>
    intro node s nv nh nc tr sf hle h
    cases node with
    | generator =>
      simp only [runFrom, runFromG] at h
      rw [Prod.mk.injEq] at h
      obtain ⟨htr, hres⟩ := h
      have hs2 : (merge s (generator_node o.gen)).iterations = s.iterations :=
        merge_iterations_none _ _ (generator_node_iterations _)
      have key := ih .self_improvement (merge s (generator_node o.gen)) nv nh nc
        (runFromG decide_after_verification decide_after_human_review o fuel
          .self_improvement (merge s (generator_node o.gen)) nv nh nc).1 sf
        (by rw [hs2]; exact hle) (by rw [← hres]; rfl)
      rw [hs2] at key
      subst htr
      rw [countVer_cons_other _ _ _ (by simp)]
      exact key
    | self_improvement =>
      simp only [runFrom, runFromG] at h
      rw [Prod.mk.injEq] at h
      obtain ⟨htr, hres⟩ := h
      have hs2 : (merge s (self_improvement_node s o.refine)).iterations = s.iterations :=
        merge_iterations_none _ _ (self_improvement_node_iterations _ _)
      have key := ih .verifier (merge s (self_improvement_node s o.refine)) nv nh nc
        (runFromG decide_after_verification decide_after_human_review o fuel
          .verifier (merge s (self_improvement_node s o.refine)) nv nh nc).1 sf
        (by rw [hs2]; exact hle) (by rw [← hres]; rfl)
      rw [hs2] at key
      subst htr
      rw [countVer_cons_other _ _ _ (by simp)]
      exact key
    | verifier =>
      cases hv : verifier_node s (o.verify nv) with
      | error m =>
        simp only [runFrom, runFromG, hv] at h
        rw [Prod.mk.injEq] at h
        exact absurd h.2 (by simp)
      | ok d =>
        have hd := verifier_ok_fields s (o.verify nv) d hv
        have hit2 : (merge s d).iterations.getD 0 = s.iterations.getD 0 + 1 := by
          simp [merge, hd.1, ovr]
        rcases decide_after_verification_cases (merge s d) with hroute | ⟨hroute, hlt, _⟩
        · simp only [runFrom, runFromG, hv, hroute, routeVerifier_end] at h
          rw [Prod.mk.injEq] at h
          obtain ⟨htr, hres⟩ := h
          have hsf : merge s d = sf := by
            injection hres
          subst htr
          rw [← hsf, hit2, countVer_cons_ver]
          simp [countVer]
          omega
        · simp only [runFrom, runFromG, hv, hroute, routeVerifier_hr] at h
          rw [Prod.mk.injEq] at h
          obtain ⟨htr, hres⟩ := h
          have key := ih .human_review (merge s d) (nv + 1) nh nc
            (runFromG decide_after_verification decide_after_human_review o fuel
              .human_review (merge s d) (nv + 1) nh nc).1 sf
            (by omega) (by rw [← hres]; rfl)
          subst htr
          rw [countVer_cons_ver]
          omega
    | human_review =>
      cases hn : human_review_node s (o.human nh) with
      | error m =>
        simp only [runFrom, runFromG, hn] at h
        rw [Prod.mk.injEq] at h
        exact absurd h.2 (by simp)
      | ok d =>
        have hs2 : (merge s d).iterations = s.iterations :=
          merge_iterations_none _ _ (human_review_ok_iterations s (o.human nh) d hn)
        rcases decide_after_human_review_cases (merge s d) with hroute | hroute
        · simp only [runFrom, runFromG, hn, hroute, routeHuman_end] at h
          rw [Prod.mk.injEq] at h
          obtain ⟨htr, hres⟩ := h
          have hsf : merge s d = sf := by injection hres
          subst htr
          rw [← hsf, countVer_cons_other _ _ _ (by simp), hs2]
          simp [countVer]
          omega
        · simp only [runFrom, runFromG, hn, hroute, routeHuman_cor] at h
          rw [Prod.mk.injEq] at h
          obtain ⟨htr, hres⟩ := h
          have key := ih .corrector (merge s d) nv (nh + 1) nc
            (runFromG decide_after_verification decide_after_human_review o fuel
              .corrector (merge s d) nv (nh + 1) nc).1 sf
            (by rw [hs2]; exact hle) (by rw [← hres]; rfl)
          rw [hs2] at key
          subst htr
          rw [countVer_cons_other _ _ _ (by simp)]
          exact key
    | corrector =>
      cases hc : corrector_node s (o.correct nc) with
      | error m =>
        simp only [runFrom, runFromG, hc] at h
        rw [Prod.mk.injEq] at h
        exact absurd h.2 (by simp)
      | ok d =>
        simp only [runFrom, runFromG, hc] at h
        rw [Prod.mk.injEq] at h
        obtain ⟨htr, hres⟩ := h
        have hs2 : (merge s d).iterations = s.iterations :=
          merge_iterations_none _ _ (corrector_ok_iterations s (o.correct nc) d hc)
        have key := ih .verifier (merge s d) nv nh (nc + 1)
          (runFromG decide_after_verification decide_after_human_review o fuel
            .verifier (merge s d) nv nh (nc + 1)).1 sf
          (by rw [hs2]; exact hle) (by rw [← hres]; rfl)
        rw [hs2] at key
        subst htr
        rw [countVer_cons_other _ _ _ (by simp)]
        exact key

/-- C3: with no failure and a REJECT-classified verdict the router goes
to human review below the budget of 3 and to END at or above it; and in
every normally terminating run the final `iterations` equals the number
of completed verifier executions and never exceeds 3. -/
theorem C3_iteration_budget :
    (∀ s : GraphState, pyTruthy s.error = false →
      is_correct (pyLower (s.verification_summary.getD "")) = false →
      decide_after_verification s
        = (if s.iterations.getD 0 < 3 then "human_review" else "END"))
    ∧ ∀ (o : Oracle) (pb : String) (tr : List (NodeId × GraphState)) (sf : GraphState),
      run o pb = (tr, .finished sf) →
      sf.iterations.getD 0 = countVer tr ∧ sf.iterations.getD 0 ≤ 3 := by
  constructor
  · intro s he hic
    simp only [decide_after_verification, he, hic, Bool.false_eq_true, if_false]
    rcases Nat.lt_or_ge (s.iterations.getD 0) 3 with h | h
    · rw [if_neg (by omega), if_pos h]
    · rw [if_pos h, if_neg (by omega)]
  · intro o pb tr sf h
    have key := runFrom_iterations_inv o 10 .generator (initState pb) 0 0 0 tr sf
      (by simp [initState]) h
    simpa [initState] using key

/-- C3 witness: the rejected mid-run state routes to human review, and a
concrete accepted run finishes with `iterations` equal to its one
completed verifier execution. -/
theorem C3_iteration_budget_witness :
    decide_after_verification sPending
        = (if sPending.iterations.getD 0 < 3 then "human_review" else "END")
    ∧ ((resultState (run oracleAccept "p").2).iterations.getD 0
          = countVer (run oracleAccept "p").1
      ∧ (resultState (run oracleAccept "p").2).iterations.getD 0 ≤ 3) :=
  ⟨C3_iteration_budget.1 sPending rfl (by decide),
   C3_iteration_budget.2 oracleAccept "p" (run oracleAccept "p").1
     (resultState (run oracleAccept "p").2) (by rfl)⟩

/-- C8: whatever the two routers do and whatever the oracle returns, the
driver executes at most `fuel` nodes — for the source configuration, at
most 10 — and when the distinct recursion-limit outcome is reported the
whole budget was consumed; so every run terminates even under a
misbehaving router. -/
theorem C8_recursion_ceiling :
    (∀ (dV dH : GraphState → String) (o : Oracle) (fuel : Nat) (n : NodeId)
        (s : GraphState) (nv nh nc : Nat),
      (runFromG dV dH o fuel n s nv nh nc).1.length ≤ fuel
      ∧ ∀ sf, (runFromG dV dH o fuel n s nv nh nc).2 = .recursionLimit sf →
          (runFromG dV dH o fuel n s nv nh nc).1.length = fuel)
    ∧ ∀ (o : Oracle) (pb : String), (run o pb).1.length ≤ 10 := by
  have main : ∀ (fuel : Nat) (dV dH : GraphState → String) (o : Oracle) (n : NodeId)
      (s : GraphState) (nv nh nc : Nat),
      (runFromG dV dH o fuel n s nv nh nc).1.length ≤ fuel
      ∧ ∀ sf, (runFromG dV dH o fuel n s nv nh nc).2 = .recursionLimit sf →
          (runFromG dV dH o fuel n s nv nh nc).1.length = fuel := by
    intro fuel
    induction fuel with
    | zero =>
      intro dV dH o n s nv nh nc
      exact ⟨by simp [runFromG], fun sf _ => by simp [runFromG]⟩
    | succ fuel ih =>
      intro dV dH o n s nv nh nc
      cases n with
      | generator =>
        have key := ih dV dH o .self_improvement (merge s (generator_node o.gen)) nv nh nc
        constructor
        · simp only [runFromG, List.length_cons]
          exact Nat.succ_le_succ key.1
        · intro sf hsf
          simp only [runFromG] at hsf ⊢
          rw [List.length_cons, key.2 sf hsf]
      | self_improvement =>
        have key := ih dV dH o .verifier (merge s (self_improvement_node s o.refine)) nv nh nc
        constructor
        · simp only [runFromG, List.length_cons]
          exact Nat.succ_le_succ key.1
        · intro sf hsf
          simp only [runFromG] at hsf ⊢
          rw [List.length_cons, key.2 sf hsf]
      | verifier =>
        cases hv : verifier_node s (o.verify nv) with
        | error m =>
          constructor
          · simp [runFromG, hv]
          · intro sf hsf
            simp only [runFromG, hv] at hsf
            exact absurd hsf (by simp)
        | ok d =>
          cases hr : routeVerifier (dV (merge s d)) with
          | error m =>
            constructor
            · simp only [runFromG, hv, hr, List.length_cons, List.length_nil]
              omega
            · intro sf hsf
              simp only [runFromG, hv, hr] at hsf
              exact absurd hsf (by simp)
          | ok onode =>
            cases onode with
            | none =>
              constructor
              · simp only [runFromG, hv, hr, List.length_cons, List.length_nil]
                omega
              · intro sf hsf
                simp only [runFromG, hv, hr] at hsf
                exact absurd hsf (by simp)
            | some n2 =>
              have key := ih dV dH o n2 (merge s d) (nv + 1) nh nc
              constructor
              · simp only [runFromG, hv, hr, List.length_cons]
                exact Nat.succ_le_succ key.1
              · intro sf hsf
                simp only [runFromG, hv, hr] at hsf ⊢
                rw [List.length_cons, key.2 sf hsf]
      | human_review =>
        cases hn : human_review_node s (o.human nh) with
        | error m =>
          constructor
          · simp [runFromG, hn]
          · intro sf hsf
            simp only [runFromG, hn] at hsf
            exact absurd hsf (by simp)
        | ok d =>
          cases hr : routeHuman (dH (merge s d)) with
          | error m =>
            constructor
            · simp only [runFromG, hn, hr, List.length_cons, List.length_nil]
              omega
            · intro sf hsf
              simp only [runFromG, hn, hr] at hsf
              exact absurd hsf (by simp)
          | ok onode =>
            cases onode with
            | none =>
              constructor
              · simp only [runFromG, hn, hr, List.length_cons, List.length_nil]
                omega
              · intro sf hsf
                simp only [runFromG, hn, hr] at hsf
                exact absurd hsf (by simp)
            | some n2 =>
              have key := ih dV dH o n2 (merge s d) nv (nh + 1) nc
              constructor
              · simp only [runFromG, hn, hr, List.length_cons]
                exact Nat.succ_le_succ key.1
              · intro sf hsf
                simp only [runFromG, hn, hr] at hsf ⊢
                rw [List.length_cons, key.2 sf hsf]
      | corrector =>
        cases hc : corrector_node s (o.correct nc) with
        | error m =>
          constructor
          · simp [runFromG, hc]
          · intro sf hsf
            simp only [runFromG, hc] at hsf
            exact absurd hsf (by simp)
        | ok d =>
          have key := ih dV dH o .verifier (merge s d) nv nh (nc + 1)
          constructor
          · simp only [runFromG, hc, List.length_cons]
            exact Nat.succ_le_succ key.1
          · intro sf hsf
            simp only [runFromG, hc] at hsf ⊢
            rw [List.length_cons, key.2 sf hsf]
  refine ⟨fun dV dH o fuel n s nv nh nc => main fuel dV dH o n s nv nh nc, ?_⟩
  intro o pb
  exact (main 10 decide_after_verification decide_after_human_review o .generator
    (initState pb) 0 0 0).1

/-- C8 witness: under a deliberately looping pair of routers the
concrete run hits the recursion limit after exactly 10 node executions. -/
theorem C8_recursion_ceiling_witness :
    (runFromG (fun _ => "human_review") (fun _ => "corrector") oracleReject 10 .generator
        (initState "p") 0 0 0).2
      = .recursionLimit (resultState (runFromG (fun _ => "human_review")
          (fun _ => "corrector") oracleReject 10 .generator (initState "p") 0 0 0).2)
    ∧ (runFromG (fun _ => "human_review") (fun _ => "corrector") oracleReject 10 .generator
        (initState "p") 0 0 0).1.length = 10 :=
  ⟨rfl,
   (C8_recursion_ceiling.1 (fun _ => "human_review") (fun _ => "corrector") oracleReject 10
      .generator (initState "p") 0 0 0).2 _ rfl⟩
